import Mathlib

/-!
# Verification of the tap-prefect request/pagination pipeline

A shallow embedding of `tap_prefect/streams.py`: the three stream classes
(`FlowRunStream`, `TaskRunSubStream`, `EventStream`), the custom link-style
paginator (`MyHATEOASPaginator`), and the event stream's request loop
(`request_records`).

Python JSON-like values (dicts, lists, strings, ints, booleans, `None`) are
modelled by the inductive type `PyVal`.  Request payloads, contexts and
response bodies are such values.  Python truthiness (`if x:`, `a or b`) is
modelled by `PyVal.truthy` / `pyOr`.

Members that the streams inherit from the framework base class
(`prefectStream` in `client.py`, and the singer-sdk `RESTStream`) are not part
of the analysed source file; they are supplied as an explicit environment
`StreamEnv`: the configuration entries (`account_id`, `workspace_id`,
`start_date`), the state-store lookup `get_starting_replication_key_value`
(field `cursor`), the page size constant `PAGE_SIZE`, the base URL and the
authentication headers.
-/

/-- A Python/JSON value.  `PyVal.none` plays the role of Python `None`
(and of JSON `null`, which `response.json()` decodes to `None`). -/
inductive PyVal where
  | none : PyVal
  | bool (b : Bool) : PyVal
  | int (n : Int) : PyVal
  | str (s : String) : PyVal
  | list (xs : List PyVal) : PyVal
  | dict (entries : List (String × PyVal)) : PyVal
deriving Repr

/-- A Python dict with string keys, as an association list (first match wins,
like a dict in which keys are unique). -/
abbrev PyDict := List (String × PyVal)

/-- Python truthiness: `None`, `False`, `0`, `""` and empty collections are
falsy, everything else is truthy. -/
def PyVal.truthy : PyVal → Bool
  | .none => false
  | .bool b => b
  | .int n => n != 0
  | .str s => s != ""
  | .list xs => !xs.isEmpty
  | .dict es => !es.isEmpty

/-- Python `a or b`: `a` when `a` is truthy, else `b`. -/
def pyOr (a b : PyVal) : PyVal :=
  if a.truthy then a else b

/-- Python `d.get(k)` on a dict: the stored value, or `None` when the key is
absent. -/
def dictGet (es : PyDict) (k : String) : PyVal :=
  (List.lookup k es).getD PyVal.none

/-- Dict field access lifted to `PyVal` (used to state properties of payloads;
returns `None` on a non-dict). -/
def pyGet : PyVal → String → PyVal
  | .dict es, k => dictGet es k
  | _, _ => PyVal.none

/-- The result of `urllib.parse.urlparse` on a next-page link, keeping the
pieces the tap uses: `geturl` reconstructs the original URL and `query` is
the substring between the first `?` and the following `#`. -/
structure ParseResult where
  geturl : String
  query : String
deriving Repr, DecidableEq

/-- The characters after the first occurrence of `c`, or `Option.none` when
`c` does not occur. -/
def dropThroughChar (c : Char) : List Char → Option (List Char)
  | [] => Option.none
  | x :: xs => if x == c then some xs else dropThroughChar c xs

/-- Split a character list at every occurrence of `c` (the result is never
empty). -/
def splitOnChar (c : Char) : List Char → List (List Char)
  | [] => [[]]
  | x :: xs =>
    match splitOnChar c xs with
    | [] => [[]]
    | g :: gs => if x == c then [] :: g :: gs else (x :: g) :: gs

/-- Join character lists, interposing `c`. -/
def joinWithChar (c : Char) : List (List Char) → List Char
  | [] => []
  | [g] => g
  | g :: gs => g ++ c :: joinWithChar c gs

/-- The query component of a URL: what stands after the first `?`, cut at
the first `#` (as `urllib.parse.urlparse` reports it for the URLs at hand). -/
def extractQuery (s : String) : String :=
  match dropThroughChar (Char.ofNat 63) s.toList with
  | some rest => String.mk (rest.takeWhile fun ch => ch != Char.ofNat 35)
  | Option.none => ""

/-- `urllib.parse.urlparse`, restricted to the pieces used by the tap. -/
def urlparse (s : String) : ParseResult :=
  { geturl := s, query := extractQuery s }

/-- Modelled from the spec: the commented-out `dict(parse_qsl(token.query))`
conversion in `EventStream.get_url_params` — the key-values parsed from a
query string (pairs split on `&`, each pair split at its first `=`, pairs
without a `=` or with an empty name skipped). -/
def parse_qsl_dict (q : String) : PyVal :=
  PyVal.dict ((splitOnChar (Char.ofNat 38) q.toList).filterMap fun kv =>
    match splitOnChar (Char.ofNat 61) kv with
    | k :: v :: vs =>
      if k.isEmpty then Option.none
      else some (String.mk k, PyVal.str (String.mk (joinWithChar (Char.ofNat 61) (v :: vs))))
    | _ => Option.none)

/-- The framework-provided surroundings of a stream instance: configuration
(`config["account_id"]`, `config["workspace_id"]`, `config.get("start_date")`),
the URL base, the replication-state lookup
`get_starting_replication_key_value(context)` (`PyVal.none` when no bookmark
exists for the context), the inherited `PAGE_SIZE`, and the `http_headers`. -/
structure StreamEnv where
  account_id : String
  workspace_id : String
  url_base : String
  start_date : PyVal
  cursor : Option PyDict → PyVal
  page_size : PyVal
  http_headers : List (String × String)

/-- `MyHATEOASPaginator.get_next_url`: `response.json().get("next_page")`
(the logging call has no effect on the value). -/
def MyHATEOASPaginator.get_next_url (body : PyDict) : PyVal :=
  dictGet body "next_page"

/-- The mutable state of a `BaseHATEOASPaginator`: whether pagination is
finished and the current token (a parsed next-page URL). -/
structure PagState where
  finished : Bool
  current : Option ParseResult
deriving Repr, DecidableEq

/-- The initial paginator state: not finished, no token (first page). -/
def PagState.init : PagState :=
  { finished := false, current := none }

/-- The string content of a next-page value (the assumed response shape has
`next_page` a URL string or null, spec §6; `urlparse` is only ever applied
to the string case). -/
def PyVal.asStr : PyVal → String
  | .str s => s
  | _ => ""

/-- Modelled from the spec: `BaseAPIPaginator.advance` of the singer-sdk
(an external collaborator, not part of the analysed source) specialised to
`MyHATEOASPaginator` — per spec §4.1 the link-style paginator is finished when
no (truthy) link is found in the response, and otherwise its next token is
the parsed URL; `get_next_url` itself is the source's. -/
def MyHATEOASPaginator.advance (s : PagState) (body : PyDict) : PagState :=
  let next := MyHATEOASPaginator.get_next_url body
  if next.truthy then
    { finished := false, current := some (urlparse next.asStr) }
  else
    { s with finished := true }

/-- `FlowRunStream.path`: the flow-runs filter endpoint under the configured
account and workspace. -/
def FlowRunStream.path (env : StreamEnv) : String :=
  "/accounts/" ++ env.account_id ++ "/workspaces/" ++ env.workspace_id ++ "/flow_runs/filter"

/-- `FlowRunStream.rest_method` class attribute. -/
def FlowRunStream.rest_method : String := "POST"

/-- `FlowRunStream.prepare_request_payload`: sort ascending by expected start
time, offset at the page token, the inherited page-size limit, and a filter on
`expected_start_time.after_` at the replication cursor, falling back (Python
`or`) to `config.get("start_date")`. -/
def FlowRunStream.prepare_request_payload (env : StreamEnv) (context : Option PyDict)
    (next_page_token : PyVal) : PyVal :=
  let starting_date := pyOr (env.cursor context) env.start_date
  PyVal.dict
    [ ("sort", PyVal.str "EXPECTED_START_TIME_ASC"),
      ("offset", next_page_token),
      ("limit", env.page_size),
      ("flow_runs", PyVal.dict
        [ ("expected_start_time", PyVal.dict [("after_", starting_date)]) ]) ]

/-- `FlowRunStream.get_child_context`: `{"flow_id": record["id"]}`.
The indexing `record["id"]` raises `KeyError` when the key is absent, modelled
by `Option.none`. -/
def FlowRunStream.get_child_context (record : PyDict) (context : Option PyDict) :
    Option PyDict :=
  (List.lookup "id" record).map fun v => [("flow_id", v)]

/-- `TaskRunSubStream.partitions`: the property always returns the empty
list, for any environment. -/
def TaskRunSubStream.partitions (env : StreamEnv) : List PyDict := []

/-- `TaskRunSubStream.path`: the task-runs filter endpoint. -/
def TaskRunSubStream.path (env : StreamEnv) : String :=
  "/accounts/" ++ env.account_id ++ "/workspaces/" ++ env.workspace_id ++ "/task_runs/filter"

/-- `TaskRunSubStream.prepare_request_payload`: scoped to the parent flow run
via `context.get("flow_id")`; the replication cursor is never consulted.
`context.get` raises `AttributeError` when `context` is `None`, modelled by
`Option.none`. -/
def TaskRunSubStream.prepare_request_payload (env : StreamEnv) (context : Option PyDict)
    (next_page_token : PyVal) : Option PyVal :=
  context.map fun c =>
    let flow_id := dictGet c "flow_id"
    PyVal.dict
      [ ("sort", PyVal.str "EXPECTED_START_TIME_ASC"),
        ("offset", next_page_token),
        ("limit", env.page_size),
        ("flow_runs", PyVal.dict [("id", PyVal.dict [("any_", PyVal.list [flow_id])])]) ]

/-- `EventStream.path`: the events filter endpoint. -/
def EventStream.path (env : StreamEnv) : String :=
  "/accounts/" ++ env.account_id ++ "/workspaces/" ++ env.workspace_id ++ "/events/filter"

/-- `EventStream.rest_method` class attribute. -/
def EventStream.rest_method : String := "POST"

/-- The framework `get_url`: URL base joined with the stream's computed path
(the path template carries no further context placeholders once the account
and workspace ids are substituted). -/
def EventStream.get_url (env : StreamEnv) (context : Option PyDict) : String :=
  env.url_base ++ EventStream.path env

/-- `EventStream.get_url_params`: the body is `return None` — the branch
parsing the token's query string is commented out in the source. -/
def EventStream.get_url_params (context : Option PyDict)
    (next_page_token : Option ParseResult) : PyVal :=
  PyVal.none

/-- `EventStream.prepare_request_payload`: a fixed limit of 50 and a filter
with `occurred.since` at the replication cursor (falling back, via Python
`or`, to `config.get("start_date")`), an exclusion of the event name
`prefect.log.write`, and ascending order; when the page token is truthy the
function returns `None` instead (a resumption link fully encodes the next
request).  The token is a `ParseResult` (a non-empty named tuple), so `some`
tokens are always truthy. -/
def EventStream.prepare_request_payload (env : StreamEnv) (context : Option PyDict)
    (next_page_token : Option ParseResult) : PyVal :=
  let starting_date := pyOr (env.cursor context) env.start_date
  let params := PyVal.dict
    [ ("limit", PyVal.int 50),
      ("filter", PyVal.dict
        [ ("occurred", PyVal.dict [("since", starting_date)]),
          ("event", PyVal.dict [("exclude_name", PyVal.list [PyVal.str "prefect.log.write"])]),
          ("order", PyVal.str "ASC") ]) ]
  match next_page_token with
  | some _ => PyVal.none
  | none => params

/-- A fully built request, as produced by `build_prepared_request`:
method, URL, query params, headers and JSON body (`PyVal.none` = absent). -/
structure PreparedRequest where
  method : String
  url : String
  params : PyVal
  headers : List (String × String)
  json : PyVal
deriving Repr

/-- The framework `build_prepared_request`, which packages its arguments into
a request. -/
def build_prepared_request (method url : String) (params : PyVal)
    (headers : List (String × String)) (json : PyVal) : PreparedRequest :=
  { method := method, url := url, params := params, headers := headers, json := json }

/-- The FIRST (shadowed) definition of `EventStream.prepare_request`
(lines 159–204 of the source): with a token the method is the literal
`"POST"`, without one the configured `rest_method`; the URL is always the
stream's computed path.  The source builds the same prepared request twice
and returns the second, identical one. -/
def EventStream.prepare_request_v1 (env : StreamEnv) (context : Option PyDict)
    (next_page_token : Option ParseResult) : PreparedRequest :=
  let http_method :=
    match next_page_token with
    | some _ => "POST"
    | none => EventStream.rest_method
  let url := EventStream.get_url env context
  let params := EventStream.get_url_params context next_page_token
  let request_data := EventStream.prepare_request_payload env context next_page_token
  build_prepared_request http_method url params env.http_headers request_data

/-- The SECOND definition of `EventStream.prepare_request` (lines 275–309),
the one that is effective in Python (a later same-named method replaces the
earlier one): with a token the method is `GET` and the URL is
`next_page_token.geturl()`; without one the configured `rest_method` and the
stream's computed path. -/
def EventStream.prepare_request (env : StreamEnv) (context : Option PyDict)
    (next_page_token : Option ParseResult) : PreparedRequest :=
  let pair :=
    match next_page_token with
    | some t => ("GET", t.geturl)
    | none => (EventStream.rest_method, EventStream.get_url env context)
  let params := EventStream.get_url_params context next_page_token
  let request_data := EventStream.prepare_request_payload env context next_page_token
  build_prepared_request pair.1 pair.2 params env.http_headers request_data

/-- `EventStream.parse_response`: `extract_jsonpath("$.events[*]", body)` —
the elements of the body's `events` list (no matches when the field is absent
or not a list). -/
def EventStream.parse_response (body : PyDict) : List PyVal :=
  match List.lookup "events" body with
  | some (PyVal.list xs) => xs
  | _ => []

/-- One run of the `while not paginator.finished` loop of
`EventStream.request_records`, against an oracle `pages` assigning to the
`k`-th dispatched request the JSON body of its response.  Each iteration
prepares and sends one request, increments the request counter, yields the
parsed records of the response, and advances the paginator.  `fuel` bounds
the number of iterations so the function is total; `Option.none` means the
fuel ran out before the paginator finished.  On success the result is the
yielded records in order together with the number of requests sent. -/
def EventStream.request_records_aux (pages : Nat → PyDict) :
    Nat → Nat → PagState → Option (List PyVal × Nat)
  | 0, _, _ => Option.none
  | fuel + 1, k, s =>
    if s.finished then
      some ([], 0)
    else
      let body := pages k
      let recs := EventStream.parse_response body
      let s1 := MyHATEOASPaginator.advance s body
      match EventStream.request_records_aux pages fuel (k + 1) s1 with
      | Option.none => Option.none
      | some (rest, n) => some (recs ++ rest, n + 1)

/-- `EventStream.request_records`: the loop started from a fresh paginator
(`get_new_paginator`, not finished, no token). -/
def EventStream.request_records (pages : Nat → PyDict) (fuel : Nat) :
    Option (List PyVal × Nat) :=
  EventStream.request_records_aux pages fuel 0 PagState.init

/-- A concrete two-page event response sequence: the first page carries two
events and a resumption link, the second page carries one event and no link. -/
def pagesW : Nat → PyDict := fun k =>
  if k = 0 then
    [ ("events", PyVal.list [PyVal.int 1, PyVal.int 2]),
      ("next_page", PyVal.str "https://api/events?cursor=2") ]
  else
    [ ("events", PyVal.list [PyVal.int 3]) ]

/-- C1: for the events stream, with a resumption token present the effective
`prepare_request` builds a GET request whose URL is exactly the token's URL
and whose JSON body is absent; without a token the method is the configured
`rest_method` and the URL is the stream's computed path.  In particular, a
second request following the link `https://api/events?cursor=abc` is a GET to
that exact URL. -/
theorem eventstream_prepare_request_effective_routing
    (env : StreamEnv) (context : Option PyDict) (t : ParseResult) :
    (EventStream.prepare_request env context (some t)).method = "GET"
    ∧ (EventStream.prepare_request env context (some t)).url = t.geturl
    ∧ (EventStream.prepare_request env context (some t)).json = PyVal.none
    ∧ (EventStream.prepare_request env context Option.none).method = EventStream.rest_method
    ∧ (EventStream.prepare_request env context Option.none).url
        = EventStream.get_url env context
    ∧ (EventStream.prepare_request env context
        (some (urlparse "https://api/events?cursor=abc"))).url
        = "https://api/events?cursor=abc" :=
  ⟨rfl, rfl, rfl, rfl, rfl, rfl⟩

/-- C3: `MyHATEOASPaginator.get_next_url` returns exactly the value stored at
the `next_page` field of the response body, and `PyVal.none` when the field
is absent (or holds JSON null, decoded to `PyVal.none`), without error; in
both no-link cases the paginator is finished after advancing, so pagination
ends after the current page. -/
theorem myhateoaspaginator_get_next_url_spec
    (body : PyDict) (v : PyVal) (s : PagState) :
    (List.lookup "next_page" body = some v →
        MyHATEOASPaginator.get_next_url body = v)
    ∧ (List.lookup "next_page" body = Option.none →
        MyHATEOASPaginator.get_next_url body = PyVal.none)
    ∧ (List.lookup "next_page" body = Option.none →
        (MyHATEOASPaginator.advance s body).finished = true)
    ∧ (List.lookup "next_page" body = some PyVal.none →
        (MyHATEOASPaginator.advance s body).finished = true) := by
  refine ⟨?_, ?_, ?_, ?_⟩ <;> intro h <;>
    simp [MyHATEOASPaginator.get_next_url, MyHATEOASPaginator.advance, dictGet, h,
      PyVal.truthy]

/-- Witness for C3 at the spec's concrete inputs: a body carrying a link
yields that exact string, and a body without the field finishes pagination. -/
theorem myhateoaspaginator_get_next_url_spec_witness :
    MyHATEOASPaginator.get_next_url [("next_page", PyVal.str "https://x/y?offset=5")]
      = PyVal.str "https://x/y?offset=5"
    ∧ (MyHATEOASPaginator.advance PagState.init [("events", PyVal.list [])]).finished
      = true :=
  ⟨(myhateoaspaginator_get_next_url_spec
      [("next_page", PyVal.str "https://x/y?offset=5")]
      (PyVal.str "https://x/y?offset=5") PagState.init).1 rfl,
   (myhateoaspaginator_get_next_url_spec
      [("events", PyVal.list [])] PyVal.none PagState.init).2.2.1 rfl⟩

/-- C8: `TaskRunSubStream.partitions` is the empty list for every
environment: the task-runs stream never runs once per partition. -/
theorem taskrun_partitions_empty (env : StreamEnv) :
    TaskRunSubStream.partitions env = [] :=
  rfl

/-- C9 (amended): `EventStream.get_url_params` returns no query parameters
(`None`) for every context and token — also when following a link-style
token; the parsing of the link's query string is disabled in the source. -/
theorem eventstream_get_url_params_always_none
    (context : Option PyDict) (next_page_token : Option ParseResult) :
    EventStream.get_url_params context next_page_token = PyVal.none :=
  rfl

/-- C9 counterexample: following a link token whose query string is
`cursor=abc`, `get_url_params` returns `None`, which is not the parsed
key-value dict `{cursor: abc}` the claim requires. -/
theorem eventstream_get_url_params_cex :
    EventStream.get_url_params Option.none
        (some (urlparse "https://api/events?cursor=abc")) = PyVal.none
    ∧ parse_qsl_dict (urlparse "https://api/events?cursor=abc").query
      = PyVal.dict [("cursor", PyVal.str "abc")]
    ∧ PyVal.none ≠ PyVal.dict [("cursor", PyVal.str "abc")] :=
  ⟨rfl, rfl, fun h => PyVal.noConfusion h⟩

/-- C10: the two same-named definitions of `EventStream.prepare_request`
build the same request whenever no page token is present (the first page):
the configured `rest_method` against the stream's computed path, with the
same params, headers and JSON body. -/
theorem eventstream_prepare_request_duplicates_agree_first_page
    (env : StreamEnv) (context : Option PyDict) :
    EventStream.prepare_request_v1 env context Option.none
      = EventStream.prepare_request env context Option.none
    ∧ (EventStream.prepare_request env context Option.none).method
      = EventStream.rest_method
    ∧ (EventStream.prepare_request env context Option.none).url
      = EventStream.get_url env context :=
  ⟨rfl, rfl, rfl⟩

/-- C2 (amended): the events payload is `None` whenever a page token is
present, for every context and cursor; without a token the payload's
`filter.occurred.since` is the replication cursor when the cursor value is
truthy, and the configured `start_date` when no cursor exists or the stored
value is falsy (Python `or` cannot distinguish an empty-string cursor from an
absent one); the event filter excludes `prefect.log.write` and the limit
is 50. -/
theorem eventstream_prepare_request_payload_spec
    (env : StreamEnv) (context : Option PyDict) (t : ParseResult) :
    EventStream.prepare_request_payload env context (some t) = PyVal.none
    ∧ ((env.cursor context).truthy = true →
        pyGet (pyGet (pyGet (EventStream.prepare_request_payload env context Option.none)
          "filter") "occurred") "since" = env.cursor context)
    ∧ ((env.cursor context).truthy = false →
        pyGet (pyGet (pyGet (EventStream.prepare_request_payload env context Option.none)
          "filter") "occurred") "since" = env.start_date)
    ∧ pyGet (pyGet (pyGet (EventStream.prepare_request_payload env context Option.none)
        "filter") "event") "exclude_name" = PyVal.list [PyVal.str "prefect.log.write"]
    ∧ pyGet (EventStream.prepare_request_payload env context Option.none) "limit"
      = PyVal.int 50 := by
  refine ⟨rfl, fun h => ?_, fun h => ?_, rfl, rfl⟩
  · show pyOr (env.cursor context) env.start_date = env.cursor context
    simp [pyOr, h]
  · show pyOr (env.cursor context) env.start_date = env.start_date
    simp [pyOr, h]

/-- Witness for C2: with a stored cursor `2021-06-01` the filter's `since`
is that cursor; with no cursor at all it is the configured `2020-01-01`. -/
theorem eventstream_prepare_request_payload_spec_witness :
    pyGet (pyGet (pyGet (EventStream.prepare_request_payload
        { account_id := "a", workspace_id := "w", url_base := "https://api.prefect.cloud/api",
          start_date := PyVal.str "2020-01-01", cursor := fun _ => PyVal.str "2021-06-01",
          page_size := PyVal.int 100, http_headers := [] } Option.none Option.none)
      "filter") "occurred") "since" = PyVal.str "2021-06-01"
    ∧ pyGet (pyGet (pyGet (EventStream.prepare_request_payload
        { account_id := "a", workspace_id := "w", url_base := "https://api.prefect.cloud/api",
          start_date := PyVal.str "2020-01-01", cursor := fun _ => PyVal.none,
          page_size := PyVal.int 100, http_headers := [] } Option.none Option.none)
      "filter") "occurred") "since" = PyVal.str "2020-01-01" :=
  ⟨(eventstream_prepare_request_payload_spec
      { account_id := "a", workspace_id := "w", url_base := "https://api.prefect.cloud/api",
        start_date := PyVal.str "2020-01-01", cursor := fun _ => PyVal.str "2021-06-01",
        page_size := PyVal.int 100, http_headers := [] } Option.none (urlparse "")).2.1 rfl,
   (eventstream_prepare_request_payload_spec
      { account_id := "a", workspace_id := "w", url_base := "https://api.prefect.cloud/api",
        start_date := PyVal.str "2020-01-01", cursor := fun _ => PyVal.none,
        page_size := PyVal.int 100, http_headers := [] } Option.none (urlparse "")).2.2.1 rfl⟩

/-- C2 counterexample: a stored cursor that is the empty string is a cursor
for the context, yet the payload's `occurred.since` is the configured
`start_date`, not that cursor — Python `or` falls back on every falsy
value, not only on a missing cursor. -/
theorem eventstream_payload_empty_cursor_cex :
    ({ account_id := "a", workspace_id := "w", url_base := "https://api.prefect.cloud/api",
       start_date := PyVal.str "2020-01-01", cursor := fun _ => PyVal.str "",
       page_size := PyVal.int 100, http_headers := [] } : StreamEnv).cursor Option.none
      = PyVal.str ""
    ∧ pyGet (pyGet (pyGet (EventStream.prepare_request_payload
        { account_id := "a", workspace_id := "w", url_base := "https://api.prefect.cloud/api",
          start_date := PyVal.str "2020-01-01", cursor := fun _ => PyVal.str "",
          page_size := PyVal.int 100, http_headers := [] } Option.none Option.none)
      "filter") "occurred") "since" = PyVal.str "2020-01-01"
    ∧ PyVal.str "2020-01-01" ≠ PyVal.str "" :=
  ⟨rfl, rfl, fun h => absurd (PyVal.str.inj h) (by decide)⟩

/-- C4 (amended): the flow-run payload sorts ascending by expected start
time, sets `offset` to the page token and `limit` to the page size, and
filters on `expected_start_time.after_` at the replication cursor when the
cursor value is truthy, falling back to the configured default start date
when no cursor exists or the stored value is falsy (Python `or`). -/
theorem flowrunstream_prepare_request_payload_spec
    (env : StreamEnv) (context : Option PyDict) (tok : PyVal) :
    pyGet (FlowRunStream.prepare_request_payload env context tok) "sort"
      = PyVal.str "EXPECTED_START_TIME_ASC"
    ∧ pyGet (FlowRunStream.prepare_request_payload env context tok) "offset" = tok
    ∧ pyGet (FlowRunStream.prepare_request_payload env context tok) "limit" = env.page_size
    ∧ ((env.cursor context).truthy = true →
        pyGet (pyGet (pyGet (FlowRunStream.prepare_request_payload env context tok)
          "flow_runs") "expected_start_time") "after_" = env.cursor context)
    ∧ ((env.cursor context).truthy = false →
        pyGet (pyGet (pyGet (FlowRunStream.prepare_request_payload env context tok)
          "flow_runs") "expected_start_time") "after_" = env.start_date) := by
  refine ⟨rfl, rfl, rfl, fun h => ?_, fun h => ?_⟩
  · show pyOr (env.cursor context) env.start_date = env.cursor context
    simp [pyOr, h]
  · show pyOr (env.cursor context) env.start_date = env.start_date
    simp [pyOr, h]

/-- Witness for C4: with cursor `C = 2021-06-01` the flow-run filter is
`after_ == C`; with no cursor it is the default `D = 2020-01-01`. -/
theorem flowrunstream_prepare_request_payload_spec_witness :
    pyGet (pyGet (pyGet (FlowRunStream.prepare_request_payload
        { account_id := "a", workspace_id := "w", url_base := "https://api.prefect.cloud/api",
          start_date := PyVal.str "2020-01-01", cursor := fun _ => PyVal.str "2021-06-01",
          page_size := PyVal.int 100, http_headers := [] } Option.none PyVal.none)
      "flow_runs") "expected_start_time") "after_" = PyVal.str "2021-06-01"
    ∧ pyGet (pyGet (pyGet (FlowRunStream.prepare_request_payload
        { account_id := "a", workspace_id := "w", url_base := "https://api.prefect.cloud/api",
          start_date := PyVal.str "2020-01-01", cursor := fun _ => PyVal.none,
          page_size := PyVal.int 100, http_headers := [] } Option.none PyVal.none)
      "flow_runs") "expected_start_time") "after_" = PyVal.str "2020-01-01" :=
  ⟨(flowrunstream_prepare_request_payload_spec
      { account_id := "a", workspace_id := "w", url_base := "https://api.prefect.cloud/api",
        start_date := PyVal.str "2020-01-01", cursor := fun _ => PyVal.str "2021-06-01",
        page_size := PyVal.int 100, http_headers := [] } Option.none PyVal.none).2.2.2.1 rfl,
   (flowrunstream_prepare_request_payload_spec
      { account_id := "a", workspace_id := "w", url_base := "https://api.prefect.cloud/api",
        start_date := PyVal.str "2020-01-01", cursor := fun _ => PyVal.none,
        page_size := PyVal.int 100, http_headers := [] } Option.none PyVal.none).2.2.2.2 rfl⟩

/-- C4 counterexample: with a stored (existing) cursor that is the empty
string, the flow-run filter's `after_` is the default start date, not the
cursor, refuting the claim that an existing cursor always appears in the
filter. -/
theorem flowrunstream_payload_empty_cursor_cex :
    ({ account_id := "a", workspace_id := "w", url_base := "https://api.prefect.cloud/api",
       start_date := PyVal.str "2020-01-01", cursor := fun _ => PyVal.str "",
       page_size := PyVal.int 100, http_headers := [] } : StreamEnv).cursor Option.none
      = PyVal.str ""
    ∧ pyGet (pyGet (pyGet (FlowRunStream.prepare_request_payload
        { account_id := "a", workspace_id := "w", url_base := "https://api.prefect.cloud/api",
          start_date := PyVal.str "2020-01-01", cursor := fun _ => PyVal.str "",
          page_size := PyVal.int 100, http_headers := [] } Option.none PyVal.none)
      "flow_runs") "expected_start_time") "after_" = PyVal.str "2020-01-01"
    ∧ PyVal.str "2020-01-01" ≠ PyVal.str "" :=
  ⟨rfl, rfl, fun h => absurd (PyVal.str.inj h) (by decide)⟩

/-- C5: a flow-run record with id `N` yields the child context
`{flow_id: N}`; the task-runs payload built from that context sets
`flow_runs.id.any_` to the singleton `[N]`; and the payload ignores the
replication cursor entirely (replacing the environment's cursor function
changes nothing). -/
theorem taskrun_child_context_payload_spec
    (env : StreamEnv) (record : PyDict) (parentCtx context : Option PyDict)
    (n tok : PyVal) (h : List.lookup "id" record = some n) :
    FlowRunStream.get_child_context record parentCtx = some [("flow_id", n)]
    ∧ pyGet (pyGet (pyGet ((TaskRunSubStream.prepare_request_payload env
        (some [("flow_id", n)]) tok).getD PyVal.none) "flow_runs") "id") "any_"
      = PyVal.list [n]
    ∧ (∀ f, TaskRunSubStream.prepare_request_payload { env with cursor := f } context tok
        = TaskRunSubStream.prepare_request_payload env context tok) :=
  ⟨by simp [FlowRunStream.get_child_context, h], rfl, fun f => rfl⟩

/-- Witness for C5: parent records with ids `1` and `2` yield contexts
`{flow_id: 1}` and `{flow_id: 2}` and task-run bodies containing
`flow_runs.id.any_: [1]` and `[2]` respectively. -/
theorem taskrun_child_context_payload_spec_witness :
    FlowRunStream.get_child_context [("id", PyVal.int 1)] Option.none
      = some [("flow_id", PyVal.int 1)]
    ∧ pyGet (pyGet (pyGet ((TaskRunSubStream.prepare_request_payload
        { account_id := "a", workspace_id := "w", url_base := "https://api.prefect.cloud/api",
          start_date := PyVal.str "2020-01-01", cursor := fun _ => PyVal.none,
          page_size := PyVal.int 100, http_headers := [] }
        (some [("flow_id", PyVal.int 1)]) PyVal.none).getD PyVal.none)
      "flow_runs") "id") "any_" = PyVal.list [PyVal.int 1]
    ∧ pyGet (pyGet (pyGet ((TaskRunSubStream.prepare_request_payload
        { account_id := "a", workspace_id := "w", url_base := "https://api.prefect.cloud/api",
          start_date := PyVal.str "2020-01-01", cursor := fun _ => PyVal.none,
          page_size := PyVal.int 100, http_headers := [] }
        (some [("flow_id", PyVal.int 2)]) PyVal.none).getD PyVal.none)
      "flow_runs") "id") "any_" = PyVal.list [PyVal.int 2] :=
  ⟨(taskrun_child_context_payload_spec
      { account_id := "a", workspace_id := "w", url_base := "https://api.prefect.cloud/api",
        start_date := PyVal.str "2020-01-01", cursor := fun _ => PyVal.none,
        page_size := PyVal.int 100, http_headers := [] }
      [("id", PyVal.int 1)] Option.none Option.none (PyVal.int 1) PyVal.none rfl).1,
   (taskrun_child_context_payload_spec
      { account_id := "a", workspace_id := "w", url_base := "https://api.prefect.cloud/api",
        start_date := PyVal.str "2020-01-01", cursor := fun _ => PyVal.none,
        page_size := PyVal.int 100, http_headers := [] }
      [("id", PyVal.int 1)] Option.none Option.none (PyVal.int 1) PyVal.none rfl).2.1,
   (taskrun_child_context_payload_spec
      { account_id := "a", workspace_id := "w", url_base := "https://api.prefect.cloud/api",
        start_date := PyVal.str "2020-01-01", cursor := fun _ => PyVal.none,
        page_size := PyVal.int 100, http_headers := [] }
      [("id", PyVal.int 2)] Option.none Option.none (PyVal.int 2) PyVal.none rfl).2.1⟩

/-- A finished paginator stops the loop at once: no request, no records. -/
theorem request_records_aux_of_finished (pages : Nat → PyDict) (fuel k : Nat)
    (s : PagState) (h : s.finished = true) :
    EventStream.request_records_aux pages (fuel + 1) k s = some ([], 0) := by
  simp [EventStream.request_records_aux, h]

/-- Advancing on a response without a truthy link finishes the paginator. -/
theorem advance_finished_of_falsy (s : PagState) (body : PyDict)
    (h : (MyHATEOASPaginator.get_next_url body).truthy = false) :
    (MyHATEOASPaginator.advance s body).finished = true := by
  simp [MyHATEOASPaginator.advance, h]

/-- Advancing on a response with a truthy link leaves the paginator
unfinished. -/
theorem advance_not_finished_of_truthy (s : PagState) (body : PyDict)
    (h : (MyHATEOASPaginator.get_next_url body).truthy = true) :
    (MyHATEOASPaginator.advance s body).finished = false := by
  simp [MyHATEOASPaginator.advance, h]

/-- One unfinished loop iteration, when the remaining run succeeds: the
iteration's records are prepended and its request is counted. -/
theorem request_records_aux_step_some (pages : Nat → PyDict) (fuel k : Nat)
    (s : PagState) (rest : List PyVal) (n : Nat) (h : s.finished = false)
    (h2 : EventStream.request_records_aux pages fuel (k + 1)
        (MyHATEOASPaginator.advance s (pages k)) = some (rest, n)) :
    EventStream.request_records_aux pages (fuel + 1) k s
      = some (EventStream.parse_response (pages k) ++ rest, n + 1) := by
  simp [EventStream.request_records_aux, h, h2]

/-- One unfinished loop iteration, when the remaining run runs out of fuel. -/
theorem request_records_aux_step_none (pages : Nat → PyDict) (fuel k : Nat)
    (s : PagState) (h : s.finished = false)
    (h2 : EventStream.request_records_aux pages fuel (k + 1)
        (MyHATEOASPaginator.advance s (pages k)) = Option.none) :
    EventStream.request_records_aux pages (fuel + 1) k s = Option.none := by
  simp [EventStream.request_records_aux, h, h2]

/-- If some page at or after the current one carries no truthy link, the
loop terminates within that many iterations, counting one request per page
processed. -/
theorem request_records_aux_term (pages : Nat → PyDict) :
    ∀ (n k : Nat) (s : PagState), s.finished = false →
      (MyHATEOASPaginator.get_next_url (pages (k + n))).truthy = false →
      ∃ recs cnt, EventStream.request_records_aux pages (n + 2) k s
          = some (recs, cnt) ∧ cnt ≤ n + 1 := by
  intro n
  induction n with
  | zero =>
    intro k s hs hn
    rw [Nat.add_zero] at hn
    refine ⟨EventStream.parse_response (pages k) ++ [], 0 + 1, ?_, Nat.le_refl 1⟩
    exact request_records_aux_step_some pages 1 k s [] 0 hs
      (request_records_aux_of_finished pages 0 (k + 1) _
        (advance_finished_of_falsy s (pages k) hn))
  | succ n ih =>
    intro k s hs hn
    cases hb : (MyHATEOASPaginator.get_next_url (pages k)).truthy with
    | false =>
      refine ⟨EventStream.parse_response (pages k) ++ [], 0 + 1, ?_, Nat.le_add_left 1 _⟩
      exact request_records_aux_step_some pages (n + 2) k s [] 0 hs
        (request_records_aux_of_finished pages (n + 1) (k + 1) _
          (advance_finished_of_falsy s (pages k) hb))
    | true =>
      have hn' : (MyHATEOASPaginator.get_next_url (pages ((k + 1) + n))).truthy = false := by
        have : (k + 1) + n = k + (n + 1) := by omega
        rw [this]
        exact hn
      obtain ⟨recs, cnt, heq, hle⟩ :=
        ih (k + 1) (MyHATEOASPaginator.advance s (pages k))
          (advance_not_finished_of_truthy s (pages k) hb) hn'
      refine ⟨EventStream.parse_response (pages k) ++ recs, cnt + 1, ?_, by omega⟩
      exact request_records_aux_step_some pages (n + 2) k s recs cnt hs heq

/-- C6: whenever some page of the sequence carries no resumption link, the
`request_records` loop terminates (with fuel bounded by that page's index),
sending one request per processed page — at most one more than the index of
the link-free page — and yielding a finite record list. -/
theorem eventstream_request_records_terminates
    (pages : Nat → PyDict) (n : Nat)
    (h : (MyHATEOASPaginator.get_next_url (pages n)).truthy = false) :
    ∃ recs cnt, EventStream.request_records pages (n + 2) = some (recs, cnt)
      ∧ cnt ≤ n + 1 := by
  have h0 : (MyHATEOASPaginator.get_next_url (pages (0 + n))).truthy = false := by
    rw [Nat.zero_add]
    exact h
  exact request_records_aux_term pages n 0 PagState.init rfl h0

/-- Witness for C6: a sequence whose first page already carries no
`next_page` link terminates after exactly one request. -/
theorem eventstream_request_records_terminates_witness :
    ∃ recs cnt,
      EventStream.request_records (fun _ => [("events", PyVal.list [PyVal.int 7])]) 2
        = some (recs, cnt) ∧ cnt ≤ 1 :=
  eventstream_request_records_terminates
    (fun _ => [("events", PyVal.list [PyVal.int 7])]) 0 rfl

/-- Whatever the loop returns is exactly the concatenation, in request
order, of the parsed records of the pages it processed. -/
theorem request_records_aux_order (pages : Nat → PyDict) :
    ∀ (fuel k : Nat) (s : PagState) (recs : List PyVal) (cnt : Nat),
      EventStream.request_records_aux pages fuel k s = some (recs, cnt) →
      recs = ((List.range' k cnt).map fun i => EventStream.parse_response (pages i)).flatten := by
  intro fuel
  induction fuel with
  | zero =>
    intro k s recs cnt h
    exact absurd h (by simp [EventStream.request_records_aux])
  | succ fuel ih =>
    intro k s recs cnt h
    cases hs : s.finished with
    | true =>
      rw [request_records_aux_of_finished pages fuel k s hs] at h
      obtain ⟨h1, h2⟩ := Prod.mk.injEq .. ▸ Option.some.inj h
      subst h1
      subst h2
      simp
    | false =>
      cases haux : EventStream.request_records_aux pages fuel (k + 1)
          (MyHATEOASPaginator.advance s (pages k)) with
      | none =>
        rw [request_records_aux_step_none pages fuel k s hs haux] at h
        exact absurd h (by simp)
      | some pr =>
        obtain ⟨rest, m⟩ := pr
        rw [request_records_aux_step_some pages fuel k s rest m hs haux] at h
        obtain ⟨h1, h2⟩ := Prod.mk.injEq .. ▸ Option.some.inj h
        subst h1
        subst h2
        rw [List.range'_succ, List.map_cons, List.flatten_cons]
        rw [ih (k + 1) (MyHATEOASPaginator.advance s (pages k)) rest m haux]

/-- C7: whenever the `request_records` loop completes, the records it
yields are exactly the `parse_response` output of each processed page, page
after page in request order — records of page `k` precede those of page
`k + 1`, and none are added, dropped or reordered. -/
theorem eventstream_request_records_order
    (pages : Nat → PyDict) (fuel : Nat) (recs : List PyVal) (cnt : Nat)
    (h : EventStream.request_records pages fuel = some (recs, cnt)) :
    recs = ((List.range cnt).map fun i => EventStream.parse_response (pages i)).flatten := by
  have := request_records_aux_order pages fuel 0 PagState.init recs cnt h
  rw [List.range_eq_range']
  exact this

/-- Witness for C7: a two-page run (two events on the first page, one on the
second, the first page linking to the second) yields `[1, 2, 3]`, the
per-page parses concatenated in request order. -/
theorem eventstream_request_records_order_witness :
    EventStream.request_records pagesW 3
      = some ([PyVal.int 1, PyVal.int 2, PyVal.int 3], 2)
    ∧ ([PyVal.int 1, PyVal.int 2, PyVal.int 3] : List PyVal)
      = ((List.range 2).map fun i => EventStream.parse_response (pagesW i)).flatten :=
  ⟨rfl, eventstream_request_records_order pagesW 3
    [PyVal.int 1, PyVal.int 2, PyVal.int 3] 2 rfl⟩
